import Mathlib

set_option maxRecDepth 4000

/-!  Shallow embedding of the s2n TLS handshake driver core:
     src/tls/s2n_handshake_io.c and src/tls/s2n_server_hello.c.
     External collaborators (stuffer, record layer, digests, per-message
     handlers, random, alerts) are modelled from the interface contracts in
     the specification; each such definition carries a doc comment saying so.  -/

/-- Connection role, from s2n_mode: S2N_SERVER is index 0 of each handler
pair in the state-machine table, S2N_CLIENT is index 1. -/
inductive Mode
  | S2N_SERVER
  | S2N_CLIENT
deriving DecidableEq, Repr, Fintype

/-- The handshake-state enumeration (enum handshake_state), both directions
in a single sequence, in table order. -/
inductive HsState
  | CLIENT_HELLO
  | SERVER_HELLO
  | SERVER_CERT
  | SERVER_CERT_STATUS
  | SERVER_KEY
  | SERVER_CERT_REQ
  | SERVER_HELLO_DONE
  | CLIENT_CERT
  | CLIENT_KEY
  | CLIENT_CERT_VERIFY
  | CLIENT_CHANGE_CIPHER_SPEC
  | CLIENT_FINISHED
  | SERVER_CHANGE_CIPHER_SPEC
  | SERVER_FINISHED
  | HANDSHAKE_OVER
deriving DecidableEq, Repr, Fintype

/-- Error kinds surfaced through s2n_errno by the S2N_ERROR macro.
BAD_MESSAGE and CLOSED are the kinds raised by the files under src; the
other kinds model errors of external collaborators named by the spec
(stuffer exhaustion, null raw reads, cipher mismatch), the spec's
unsupported_version taxonomy entry, and a marker for the explicit bound
placed on the modelled reassembly loop. -/
inductive S2nErr
  | BAD_MESSAGE
  | CLOSED
  | UNSUPPORTED_VERSION
  | CIPHER_MISMATCH
  | STUFFER_OUT_OF_DATA
  | NULL_BLOB
  | FUEL_EXHAUSTED
deriving DecidableEq, Repr

/-- Record-layer per-record progression marker (conn->in_status); the driver
only ever stores ENCRYPTED after consuming a record. -/
inductive InStatus
  | ENCRYPTED
  | PLAINTEXT
deriving DecidableEq, Repr

/- Record content types (spec section 6 wire constants; the C constants live
in tls/s2n_record.h, outside src). -/
def TLS_CHANGE_CIPHER_SPEC : Nat := 20
def TLS_ALERT : Nat := 21
def TLS_HANDSHAKE : Nat := 22
def TLS_APPLICATION_DATA : Nat := 23

/- Handshake message type tags, from the defines at the top of
src/tls/s2n_handshake_io.c (RFC5246 7.4). -/
def TLS_HELLO_REQUEST : Nat := 0
def TLS_CLIENT_HELLO : Nat := 1
def TLS_SERVER_HELLO : Nat := 2
def TLS_SERVER_CERT : Nat := 11
def TLS_SERVER_KEY : Nat := 12
def TLS_SERVER_CERT_REQ : Nat := 13
def TLS_SERVER_HELLO_DONE : Nat := 14
def TLS_CLIENT_CERT : Nat := 11
def TLS_CLIENT_CERT_VERIFY : Nat := 15
def TLS_CLIENT_KEY : Nat := 16
def TLS_CLIENT_FINISHED : Nat := 20
def TLS_SERVER_FINISHED : Nat := 20
def TLS_SERVER_CERT_STATUS : Nat := 22

/-- Modelled from the spec: the 4-byte handshake header length (1-byte type
plus 3-byte big-endian length; constant defined outside src). -/
def TLS_HANDSHAKE_HEADER_LENGTH : Nat := 4

/-- Modelled from the spec: the enforced implementation cap on a handshake
message's declared body length (the exact constant lives outside src; only
its existence matters to the embedded claims). -/
def S2N_MAXIMUM_HANDSHAKE_MESSAGE_LENGTH : Nat := 65535

/- Modelled from the spec: protocol-version numerics, major*10 + minor, with
the accepted range SSLv3 (3.0) through TLS 1.2 (3.3); constants outside src. -/
def S2N_SSLv3 : Nat := 30
def S2N_TLS10 : Nat := 31
def S2N_TLS11 : Nat := 32
def S2N_TLS12 : Nat := 33

/- Modelled from the spec: fixed field widths of the ServerHello. -/
def S2N_TLS_PROTOCOL_VERSION_LEN : Nat := 2
def S2N_TLS_RANDOM_DATA_LEN : Nat := 32
def S2N_TLS_SESSION_ID_LEN : Nat := 32
def S2N_TLS_CIPHER_SUITE_LEN : Nat := 2

/-- From RFC5246 7.4.1.2 (define in src/tls/s2n_server_hello.c). -/
def S2N_TLS_COMPRESSION_METHOD_NULL : Nat := 0

/- Modelled from the spec: tags for the chosen signature/digest algorithm
(constants from the hash header, outside src). -/
def S2N_HASH_MD5_SHA1 : Nat := 0
def S2N_HASH_SHA1 : Nat := 1

/-- Modelled from the spec: the stuffer is a byte buffer with read and write
cursors (stuffer/s2n_stuffer.c is not under src). data holds the bytes
written so far; readPos is the read cursor; the write cursor is the end of
data. -/
structure Stuffer where
  data : List Nat
  readPos : Nat
deriving DecidableEq, Repr

/-- Modelled from the spec: bytes between the read and write cursors. -/
def Stuffer.dataAvailable (s : Stuffer) : Nat := s.data.length - s.readPos

/-- The unread suffix of the buffer, as a list. -/
def Stuffer.remaining (s : Stuffer) : List Nat := s.data.drop s.readPos

/-- Modelled from the spec: wipe clears the buffer and resets both cursors. -/
def Stuffer.wipe (_ : Stuffer) : Stuffer := ⟨[], 0⟩

/-- Modelled from the spec: reread rewinds the read cursor. -/
def Stuffer.reread (s : Stuffer) : Stuffer := { s with readPos := 0 }

/-- Modelled from the spec: write appends bytes at the write cursor. -/
def Stuffer.write (s : Stuffer) (bs : List Nat) : Stuffer :=
  { s with data := s.data ++ bs }

/-- Modelled from the spec: raw-read yields n bytes at the read cursor and
advances it (total here; callers that must check availability use readBytes). -/
def Stuffer.rawRead (s : Stuffer) (n : Nat) : List Nat × Stuffer :=
  (s.remaining.take n, { s with readPos := s.readPos + n })

/-- Modelled from the spec: a checked read of n bytes, failing when fewer
than n bytes are available (s2n_stuffer_read_bytes / raw_read NULL cases). -/
def readBytes (s : Stuffer) (n : Nat) : Option (List Nat × Stuffer) :=
  if n ≤ s.dataAvailable then some (s.rawRead n) else none

/-- Modelled from the spec: copy n bytes from one stuffer into another. -/
def stuffer_copy (src dst : Stuffer) (n : Nat) : Stuffer × Stuffer :=
  let p := src.rawRead n
  (p.2, dst.write p.1)

/-- The six transcript digests (conn->handshake.*); each is modelled as the
list of bytes absorbed so far, in order. -/
structure HandshakeHashes where
  client_md5 : List Nat
  client_sha1 : List Nat
  client_sha256 : List Nat
  server_md5 : List Nat
  server_sha1 : List Nat
  server_sha256 : List Nat
deriving DecidableEq, Repr

/-- Modelled from the spec: hash_update absorbs a byte range into a digest. -/
def hash_update (d : List Nat) (bs : List Nat) : List Nat := d ++ bs

/-- The secrets-and-parameters-in-negotiation block (conn->pending).
cipher_suite holds the chosen suite's 2-byte wire value. -/
structure Pending where
  server_random : List Nat
  cipher_suite : List Nat
  signature_digest_alg : Nat
deriving DecidableEq, Repr

/-- The connection.  Fields mirror struct s2n_connection as used by the two
files under src.  offered_suites models the cipher-suite set the connection
offered (consulted by s2n_set_cipher_as_client, whose code is outside src);
server_extensions models the serialized extension payload the send path
emits.  delays counts blinding delays imposed (s2n_sleep_delay is outside
src); wire accumulates flushed bytes; cprover_ok is the conjunction of all
evaluated __CPROVER_assert conditions, which have no run-time effect in C. -/
structure Conn where
  mode : Mode
  state : HsState
  next_state : HsState
  hio : Stuffer
  inb : Stuffer
  out : Stuffer
  header_in : Stuffer
  in_status : InStatus
  hashes : HandshakeHashes
  closed : Bool
  client_protocol_version : Nat
  server_protocol_version : Nat
  actual_protocol_version : Nat
  actual_protocol_version_established : Bool
  pending : Pending
  offered_suites : List (List Nat)
  server_extensions : List Nat
  delays : Nat
  wire : List Nat
  cprover_ok : Bool
deriving DecidableEq, Repr

/-- A step result: an optional error (s2n_errno when the C function returns
-1) together with the connection, whose mutations persist across errors. -/
abbrev SR := Option S2nErr × Conn

/-- One row of the static state-machine table of s2n_handshake_io.c (the
handler function-pointer pair is external and is supplied separately, see
ExtFns). -/
structure HandshakeAction where
  record_type : Nat
  message_type : Nat
  writer : Char
deriving DecidableEq, Repr

/-- The static state_machine table, row for row from s2n_handshake_io.c. -/
def state_machine : HsState → HandshakeAction
  | .CLIENT_HELLO => ⟨TLS_HANDSHAKE, TLS_CLIENT_HELLO, 'C'⟩
  | .SERVER_HELLO => ⟨TLS_HANDSHAKE, TLS_SERVER_HELLO, 'S'⟩
  | .SERVER_CERT => ⟨TLS_HANDSHAKE, TLS_SERVER_CERT, 'S'⟩
  | .SERVER_CERT_STATUS => ⟨TLS_HANDSHAKE, TLS_SERVER_CERT_STATUS, 'S'⟩
  | .SERVER_KEY => ⟨TLS_HANDSHAKE, TLS_SERVER_KEY, 'S'⟩
  | .SERVER_CERT_REQ => ⟨TLS_HANDSHAKE, TLS_SERVER_CERT_REQ, 'S'⟩
  | .SERVER_HELLO_DONE => ⟨TLS_HANDSHAKE, TLS_SERVER_HELLO_DONE, 'S'⟩
  | .CLIENT_CERT => ⟨TLS_HANDSHAKE, TLS_CLIENT_CERT, 'C'⟩
  | .CLIENT_KEY => ⟨TLS_HANDSHAKE, TLS_CLIENT_KEY, 'C'⟩
  | .CLIENT_CERT_VERIFY => ⟨TLS_HANDSHAKE, TLS_CLIENT_CERT_VERIFY, 'C'⟩
  | .CLIENT_CHANGE_CIPHER_SPEC => ⟨TLS_CHANGE_CIPHER_SPEC, 0, 'C'⟩
  | .CLIENT_FINISHED => ⟨TLS_HANDSHAKE, TLS_CLIENT_FINISHED, 'C'⟩
  | .SERVER_CHANGE_CIPHER_SPEC => ⟨TLS_CHANGE_CIPHER_SPEC, 0, 'S'⟩
  | .SERVER_FINISHED => ⟨TLS_HANDSHAKE, TLS_SERVER_FINISHED, 'S'⟩
  | .HANDSHAKE_OVER => ⟨TLS_APPLICATION_DATA, 0, 'B'⟩

/-- The validity condition computed by validate_transition in
s2n_handshake_io.c, one disjunct per if-statement, in source order.  (The
mode variable read by the C function is never used there.) -/
def validate_transition_valid (state next_state : HsState) : Bool :=
  (state == .CLIENT_HELLO && next_state == .SERVER_HELLO) ||
  (state == .SERVER_HELLO && next_state == .SERVER_CERT) ||
  (state == .SERVER_HELLO && next_state == .SERVER_KEY) ||
  (state == .SERVER_HELLO && next_state == .SERVER_CERT_REQ) ||
  (state == .SERVER_HELLO && next_state == .SERVER_HELLO_DONE) ||
  (state == .SERVER_CERT && next_state == .SERVER_KEY) ||
  (state == .SERVER_CERT && next_state == .SERVER_CERT_REQ) ||
  (state == .SERVER_CERT && next_state == .SERVER_HELLO_DONE) ||
  (state == .SERVER_KEY && next_state == .SERVER_CERT_REQ) ||
  (state == .SERVER_KEY && next_state == .SERVER_HELLO_DONE) ||
  (state == .SERVER_HELLO_DONE && next_state == .CLIENT_CERT) ||
  (state == .SERVER_HELLO_DONE && next_state == .CLIENT_KEY) ||
  (state == .CLIENT_CERT && next_state == .CLIENT_KEY) ||
  (state == .CLIENT_KEY && next_state == .CLIENT_CERT_VERIFY) ||
  (state == .CLIENT_KEY && next_state == .CLIENT_CHANGE_CIPHER_SPEC) ||
  (state == .CLIENT_CERT_VERIFY && next_state == .CLIENT_CHANGE_CIPHER_SPEC) ||
  (state == .CLIENT_CHANGE_CIPHER_SPEC && next_state == .CLIENT_FINISHED) ||
  (state == .CLIENT_FINISHED && next_state == .SERVER_CHANGE_CIPHER_SPEC) ||
  (state == .SERVER_CHANGE_CIPHER_SPEC && next_state == .SERVER_FINISHED) ||
  (state == .SERVER_FINISHED && next_state == .HANDSHAKE_OVER) ||
  (state == .HANDSHAKE_OVER)

/-- The validity condition of validate_send_state: in the CLIENT_* states
only a client may send; otherwise, except in HANDSHAKE_OVER, only a server;
the C local valid stays 0 for HANDSHAKE_OVER itself. -/
def validate_send_state_valid (state : HsState) (mode : Mode) : Bool :=
  if state == .CLIENT_HELLO || state == .CLIENT_CERT || state == .CLIENT_KEY ||
     state == .CLIENT_CERT_VERIFY || state == .CLIENT_CHANGE_CIPHER_SPEC ||
     state == .CLIENT_FINISHED then
    mode == .S2N_CLIENT
  else if state != .HANDSHAKE_OVER then
    mode == .S2N_SERVER
  else
    false

/-- The validity condition of validate_recv_state: the dual of the send
check. -/
def validate_recv_state_valid (state : HsState) (mode : Mode) : Bool :=
  if state == .CLIENT_HELLO || state == .CLIENT_CERT || state == .CLIENT_KEY ||
     state == .CLIENT_CERT_VERIFY || state == .CLIENT_CHANGE_CIPHER_SPEC ||
     state == .CLIENT_FINISHED then
    mode == .S2N_SERVER
  else if state != .HANDSHAKE_OVER then
    mode == .S2N_CLIENT
  else
    false

/-- validate_transition as called on a connection; the __CPROVER_assert has
no run-time effect, so the evaluated condition is recorded in the ghost
cprover_ok field. -/
def validate_transition (c : Conn) : Conn :=
  { c with cprover_ok := c.cprover_ok && validate_transition_valid c.state c.next_state }

/-- validate_send_state as called on a connection (ghost assertion). -/
def validate_send_state (c : Conn) : Conn :=
  { c with cprover_ok := c.cprover_ok && validate_send_state_valid c.state c.mode }

/-- validate_recv_state as called on a connection (ghost assertion). -/
def validate_recv_state (c : Conn) : Conn :=
  { c with cprover_ok := c.cprover_ok && validate_recv_state_valid c.state c.mode }

/-- The legal-transitions table exactly as the spec lists it (section 3),
including the HANDSHAKE_OVER self-loop and nothing else. -/
def legal_transitions : List (HsState × HsState) :=
  [(.CLIENT_HELLO, .SERVER_HELLO),
   (.SERVER_HELLO, .SERVER_CERT), (.SERVER_HELLO, .SERVER_KEY),
   (.SERVER_HELLO, .SERVER_CERT_REQ), (.SERVER_HELLO, .SERVER_HELLO_DONE),
   (.SERVER_CERT, .SERVER_KEY), (.SERVER_CERT, .SERVER_CERT_REQ),
   (.SERVER_CERT, .SERVER_HELLO_DONE),
   (.SERVER_KEY, .SERVER_CERT_REQ), (.SERVER_KEY, .SERVER_HELLO_DONE),
   (.SERVER_HELLO_DONE, .CLIENT_CERT), (.SERVER_HELLO_DONE, .CLIENT_KEY),
   (.CLIENT_CERT, .CLIENT_KEY),
   (.CLIENT_KEY, .CLIENT_CERT_VERIFY), (.CLIENT_KEY, .CLIENT_CHANGE_CIPHER_SPEC),
   (.CLIENT_CERT_VERIFY, .CLIENT_CHANGE_CIPHER_SPEC),
   (.CLIENT_CHANGE_CIPHER_SPEC, .CLIENT_FINISHED),
   (.CLIENT_FINISHED, .SERVER_CHANGE_CIPHER_SPEC),
   (.SERVER_CHANGE_CIPHER_SPEC, .SERVER_FINISHED),
   (.SERVER_FINISHED, .HANDSHAKE_OVER),
   (.HANDSHAKE_OVER, .HANDSHAKE_OVER)]

/-- C1 counterexample: validate_transition accepts the pair
(HANDSHAKE_OVER, CLIENT_HELLO), which is not in the spec's legal-transitions
table, so the claimed acceptance condition is not an iff and HANDSHAKE_OVER
has accepted successors other than itself. -/
theorem c1_counterexample :
    validate_transition_valid .HANDSHAKE_OVER .CLIENT_HELLO = true ∧
    (HsState.HANDSHAKE_OVER, HsState.CLIENT_HELLO) ∉ legal_transitions := by
  decide

/-- C1 (amended): validate_transition accepts (state, next_state) exactly
when the pair is in the spec's legal-transitions table or state is
HANDSHAKE_OVER; from HANDSHAKE_OVER every successor is accepted, and for
all other states every pair not in the table is rejected. -/
theorem c1_transition_iff_table_or_over :
    ∀ s n : HsState,
      validate_transition_valid s n = true ↔
        ((s, n) ∈ legal_transitions ∨ s = .HANDSHAKE_OVER) := by
  decide

/-- s2n_conn_update_handshake_hashes from s2n_handshake_io.c: absorb a byte
range into all six transcript digests. -/
def s2n_conn_update_handshake_hashes (c : Conn) (bs : List Nat) : Conn :=
  { c with hashes :=
      { client_md5 := hash_update c.hashes.client_md5 bs
        client_sha1 := hash_update c.hashes.client_sha1 bs
        client_sha256 := hash_update c.hashes.client_sha256 bs
        server_md5 := hash_update c.hashes.server_md5 bs
        server_sha1 := hash_update c.hashes.server_sha1 bs
        server_sha256 := hash_update c.hashes.server_sha256 bs } }

/-- The external per-message handlers and the two other external entry
points the drivers dispatch to.  handler s m models
state_machine[s].handler[m]; the individual handler bodies live outside
src, so they are parameters of the drivers. -/
structure ExtFns where
  handler : HsState → Mode → Conn → SR
  sslv2_client_hello_recv : Conn → SR
  process_alert_fragment : Conn → SR

/-- Modelled from the spec: s2n_handshake_write_header (outside src) writes
the 4-byte handshake header placeholder, message type plus a zero 3-byte
length, into handshake_io. -/
def s2n_handshake_write_header (c : Conn) (message_type : Nat) : Conn :=
  { c with hio := c.hio.write [message_type, 0, 0, 0] }

/-- Modelled from the spec: s2n_handshake_finish_header (outside src)
backpatches the 3-byte big-endian length field of the handshake header at
the start of handshake_io with the body length. -/
def s2n_handshake_finish_header (c : Conn) : Conn :=
  let len := c.hio.data.length - TLS_HANDSHAKE_HEADER_LENGTH
  { c with hio := { c.hio with data :=
      ((c.hio.data.set 1 (len / 65536 % 256)).set 2 (len / 256 % 256)).set 3 (len % 256) } }

/-- Modelled from the spec: the record layer (outside src) frames a payload
as content type, 2-byte protocol version, 2-byte length, then the payload,
appended to the connection's out stuffer. -/
def s2n_record_write (c : Conn) (record_type : Nat) (payload : List Nat) : Conn :=
  { c with out := c.out.write (
      [record_type, c.actual_protocol_version / 10, c.actual_protocol_version % 10,
        payload.length / 256 % 256, payload.length % 256] ++ payload) }

/-- Modelled from the spec: a successful flush moves everything pending in
the out stuffer onto the wire (the would-block suspension is not needed by
the claims settled here). -/
def s2n_flush (c : Conn) : Conn :=
  { c with wire := c.wire ++ c.out.remaining,
           out := { c.out with readPos := c.out.data.length } }

/-- Modelled from the spec: s2n_sleep_delay (outside src) imposes a
randomized blinding delay; modelled as a counter of delays imposed. -/
def s2n_sleep_delay (c : Conn) : Conn :=
  { c with delays := c.delays + 1 }

/-- The fresh-message block of handshake_write_io (the body of the
if at line 98 of s2n_handshake_io.c): write the header placeholder when the
record type is handshake, invoke the current state's handler, backpatch the
length. -/
def hwio_fresh (e : ExtFns) (record_type : Nat) (c : Conn) : SR :=
  let c1 := if record_type = TLS_HANDSHAKE then
              s2n_handshake_write_header c (state_machine c.state).message_type
            else c
  match e.handler c1.state c1.mode c1 with
  | (some err, c2) => (some err, c2)
  | (none, c2) =>
      (none, if record_type = TLS_HANDSHAKE then s2n_handshake_finish_header c2 else c2)

/-- The emission phase of handshake_write_io (lines 108-142): take a
fragment of at most the record-layer maximum from handshake_io, write the
record, absorb the fragment into the transcript digests when the record
type is handshake, flush, and when handshake_io has drained wipe the
buffers, assert the transition and advance the state. -/
def hwio_emit (record_type : Nat) (max_payload_size : Nat) (c0 : Conn) : SR :=
  let size := if c0.hio.dataAvailable > max_payload_size then max_payload_size
              else c0.hio.dataAvailable
  let p := c0.hio.rawRead size
  let c := { c0 with hio := p.2 }
  let c := s2n_record_write c record_type p.1
  let c := if record_type = TLS_HANDSHAKE then s2n_conn_update_handshake_hashes c p.1 else c
  let c := s2n_flush c
  if c.hio.dataAvailable = 0 then
    let c := { c with out := c.out.wipe, hio := c.hio.wipe }
    let c := validate_transition c
    (none, { c with state := c.next_state })
  else
    (none, c)

/-- The fragment the emission phase takes from handshake_io. -/
def hwio_frag (max_payload_size : Nat) (c : Conn) : List Nat :=
  c.hio.remaining.take
    (if c.hio.dataAvailable > max_payload_size then max_payload_size else c.hio.dataAvailable)

/-- handshake_write_io from s2n_handshake_io.c: assert the send role, and
when the out stuffer is empty run the fresh-message block, then emit one
fragment.  max_payload_size stands for the external
s2n_record_max_write_payload_size(conn). -/
def handshake_write_io (e : ExtFns) (max_payload_size : Nat) (c0 : Conn) : SR :=
  let c := validate_send_state c0
  let record_type := (state_machine c.state).record_type
  if c.out.dataAvailable = 0 then
    match hwio_fresh e record_type c with
    | (some err, c1) => (some err, c1)
    | (none, c1) => hwio_emit record_type max_payload_size c1
  else
    hwio_emit record_type max_payload_size c

/-- Modelled from the spec: s2n_handshake_parse_header (outside src) reads
the 4-byte header from handshake_io: a 1-byte message type then a 3-byte
big-endian body length. -/
def s2n_handshake_parse_header (c : Conn) : Option ((Nat × Nat) × Conn) :=
  match readBytes c.hio TLS_HANDSHAKE_HEADER_LENGTH with
  | none => none
  | some (bs, hio2) =>
      some ((bs.getD 0 0,
             bs.getD 1 0 * 65536 + bs.getD 2 0 * 256 + bs.getD 3 0),
            { c with hio := hio2 })

/-- The tri-state result of read_full_handshake_message: the C function
returns 0 with the message type, 1 when more bytes are needed, or -1. -/
inductive ReadMsg
  | complete (message_type : Nat)
  | needMore
  | fail (e : S2nErr)
deriving DecidableEq, Repr

/-- The tail of read_full_handshake_message after the header bytes are in
handshake_io: parse the header, bound-check the declared length, pull
min(remaining body, record bytes) into handshake_io (the C computes the
difference in uint32 arithmetic, hence the mod 2^32), and either absorb the
whole header-plus-body into the digests or rewind the read cursor and ask
for more. -/
def rfhm_after_header (c0 : Conn) : ReadMsg × Conn :=
  match s2n_handshake_parse_header c0 with
  | none => (.fail .STUFFER_OUT_OF_DATA, c0)
  | some ((message_type, handshake_message_length), c) =>
    if handshake_message_length > S2N_MAXIMUM_HANDSHAKE_MESSAGE_LENGTH then
      (.fail .BAD_MESSAGE, c)
    else
      let btt := (handshake_message_length + 4294967296 - c.hio.dataAvailable) % 4294967296
      let bytes_to_take := if btt > c.inb.dataAvailable then c.inb.dataAvailable else btt
      let p := stuffer_copy c.inb c.hio bytes_to_take
      let c := { c with inb := p.1, hio := p.2 }
      if c.hio.dataAvailable = handshake_message_length then
        let hs := c.hio.data.take (TLS_HANDSHAKE_HEADER_LENGTH + handshake_message_length)
        (.complete message_type, s2n_conn_update_handshake_hashes c hs)
      else
        (.needMore, { c with hio := c.hio.reread })

/-- read_full_handshake_message from s2n_handshake_io.c: assert the receive
role, accumulate the 4-byte header in handshake_io (possibly across
records), then parse and pull the body. -/
def read_full_handshake_message (c0 : Conn) : ReadMsg × Conn :=
  let c := validate_recv_state c0
  let current_handshake_data := c.hio.dataAvailable
  if current_handshake_data < TLS_HANDSHAKE_HEADER_LENGTH then
    if c.inb.dataAvailable < TLS_HANDSHAKE_HEADER_LENGTH - current_handshake_data then
      let p := stuffer_copy c.inb c.hio c.inb.dataAvailable
      (.needMore, { c with inb := p.1, hio := p.2 })
    else
      let p := stuffer_copy c.inb c.hio (TLS_HANDSHAKE_HEADER_LENGTH - current_handshake_data)
      rfhm_after_header { c with inb := p.1, hio := p.2 }
  else
    rfhm_after_header c

/-- Wiping of the record buffers on the terminal branches of
handshake_read_io. -/
def wipe_record (c : Conn) : Conn :=
  { c with header_in := c.header_in.wipe, inb := c.inb.wipe, in_status := .ENCRYPTED }

/-- The reassembly while-loop of handshake_read_io (lines 296-329).  The C
loop terminates because every iteration either consumes record bytes or
consumes the leftover reassembled message; the explicit bound passed by
handshake_read_io is large enough for that measure, and exhausting it is
flagged with a distinguished error never produced on the C paths. -/
def hrio_loop (e : ExtFns) : Nat → Conn → SR
  | 0, c => (some .FUEL_EXHAUSTED, c)
  | Nat.succ fuel, c =>
    if c.inb.dataAvailable = 0 then
      (none, wipe_record c)
    else
      match read_full_handshake_message c with
      | (.fail err, c1) => (some err, c1)
      | (.needMore, c1) => (none, wipe_record c1)
      | (.complete handshake_message_type, c1) =>
        if handshake_message_type ≠ (state_machine c1.state).message_type then
          (some .BAD_MESSAGE, c1)
        else
          match e.handler c1.state c1.mode c1 with
          | (r, c2) =>
            let c3 := { c2 with hio := c2.hio.wipe }
            match r with
            | some err => (some err, s2n_sleep_delay c3)
            | none =>
              let c4 := validate_transition c3
              hrio_loop e fuel { c4 with state := c4.next_state }

/-- handshake_read_io from s2n_handshake_io.c, modelling the body after
s2n_read_full_record (an external record-layer call) has succeeded and
produced record_type and the SSLv2 signal: the SSLv2-compat ClientHello
block, then dispatch on the record content type, with the reassembly loop
for handshake records. -/
def handshake_read_io (e : ExtFns) (record_type : Nat) (isSSLv2 : Bool) (c0 : Conn) : SR :=
  let c := validate_recv_state c0
  let ssl : SR :=
    if isSSLv2 then
      if c.state ≠ .CLIENT_HELLO then
        (some .BAD_MESSAGE, c)
      else
        let c := s2n_conn_update_handshake_hashes c ((c.header_in.data.drop 2).take 3)
        let c := s2n_conn_update_handshake_hashes c (c.inb.data.take c.inb.dataAvailable)
        let p := stuffer_copy c.inb c.hio c.inb.dataAvailable
        let c := { c with inb := p.1, hio := p.2 }
        match e.sslv2_client_hello_recv c with
        | (some err, c1) => (some err, c1)
        | (none, c1) =>
          let c2 := { c1 with hio := c1.hio.wipe }
          let c2 := wipe_record c2
          let c2 := validate_transition c2
          (none, { c2 with state := c2.next_state })
    else
      (none, c)
  match ssl with
  | (some err, c) => (some err, c)
  | (none, c) =>
    if record_type = TLS_APPLICATION_DATA then
      (some .BAD_MESSAGE, c)
    else if record_type = TLS_CHANGE_CIPHER_SPEC then
      if c.inb.dataAvailable ≠ 1 then
        (some .BAD_MESSAGE, c)
      else
        let p := stuffer_copy c.inb c.hio c.inb.dataAvailable
        let c := { c with inb := p.1, hio := p.2 }
        match e.handler c.state c.mode c with
        | (some err, c1) => (some err, c1)
        | (none, c1) =>
          let c2 := { c1 with hio := c1.hio.wipe }
          let c2 := wipe_record c2
          let c2 := validate_transition c2
          (none, { c2 with state := c2.next_state })
    else if record_type ≠ TLS_HANDSHAKE then
      match (if record_type = TLS_ALERT then e.process_alert_fragment c else (none, c)) with
      | (some err, c1) => (some err, c1)
      | (none, c1) => (none, wipe_record c1)
    else
      hrio_loop e (c.inb.dataAvailable * 2 + 2) c

/-- Modelled from the spec: s2n_set_cipher_as_client (s2n_cipher_suites.c,
outside src) resolves the 2-byte wire value against the suites this
connection offered, fatal on mismatch, and records the match as the pending
cipher suite. -/
def s2n_set_cipher_as_client (c : Conn) (cipher_suite_wire : List Nat) : SR :=
  if cipher_suite_wire ∈ c.offered_suites then
    (none, { c with pending := { c.pending with cipher_suite := cipher_suite_wire } })
  else
    (some .CIPHER_MISMATCH, c)

/-- Modelled from the spec: s2n_server_extensions_recv (outside src)
dispatches the received extension block; its effects are outside the
negotiated values the claims compare, so it succeeds without touching the
modelled connection state. -/
def s2n_server_extensions_recv (c : Conn) (_extensions : List Nat) : SR :=
  (none, c)

/-- Modelled from the spec: s2n_server_extensions_send (outside src)
serializes the connection's extension payload as a 2-byte big-endian total
length followed by the block, or nothing when there are no extensions. -/
def s2n_server_extensions_send (c : Conn) : Conn :=
  if c.server_extensions.isEmpty then c
  else
    { c with hio := c.hio.write (
        [c.server_extensions.length / 256 % 256, c.server_extensions.length % 256]
          ++ c.server_extensions) }

/-- s2n_server_hello_recv from s2n_server_hello.c, reading from
conn->handshake.io and mutating the connection in place, so all field and
cursor updates before a failing check persist on the error return. -/
def s2n_server_hello_recv (c0 : Conn) : SR :=
  match readBytes c0.hio S2N_TLS_PROTOCOL_VERSION_LEN with
  | none => (some .STUFFER_OUT_OF_DATA, c0)
  | some (protocol_version, s1) =>
    let c := { c0 with
      hio := s1,
      server_protocol_version :=
        protocol_version.getD 0 0 * 10 + protocol_version.getD 1 0 }
    if c.server_protocol_version > c.actual_protocol_version then
      (some .BAD_MESSAGE, c)
    else
      let c := { c with
        actual_protocol_version := c.server_protocol_version,
        actual_protocol_version_established := true }
      if c.actual_protocol_version < S2N_SSLv3 ∨ c.actual_protocol_version > S2N_TLS12 then
        (some .BAD_MESSAGE, c)
      else
        let c := { c with pending := { c.pending with signature_digest_alg :=
            if c.actual_protocol_version = S2N_TLS12 then S2N_HASH_SHA1
            else S2N_HASH_MD5_SHA1 } }
        match readBytes c.hio S2N_TLS_RANDOM_DATA_LEN with
        | none => (some .STUFFER_OUT_OF_DATA, c)
        | some (rnd, s2) =>
          let c := { c with
            hio := s2,
            pending := { c.pending with server_random := rnd } }
          match readBytes c.hio 1 with
          | none => (some .STUFFER_OUT_OF_DATA, c)
          | some (sid, s3) =>
            let c := { c with hio := s3 }
            let session_id_len := sid.getD 0 0
            if session_id_len > S2N_TLS_SESSION_ID_LEN then
              (some .BAD_MESSAGE, c)
            else
              match readBytes c.hio session_id_len with
              | none => (some .STUFFER_OUT_OF_DATA, c)
              | some (_, s4) =>
                let c := { c with hio := s4 }
                match readBytes c.hio S2N_TLS_CIPHER_SUITE_LEN with
                | none => (some .NULL_BLOB, c)
                | some (cipher_suite_wire, s5) =>
                  let c := { c with hio := s5 }
                  match s2n_set_cipher_as_client c cipher_suite_wire with
                  | (some err, c1) => (some err, c1)
                  | (none, c1) =>
                    match readBytes c1.hio 1 with
                    | none => (some .STUFFER_OUT_OF_DATA, c1)
                    | some (comp, s6) =>
                      let c := { c1 with hio := s6 }
                      if comp.getD 0 0 ≠ S2N_TLS_COMPRESSION_METHOD_NULL then
                        (some .BAD_MESSAGE, c)
                      else if c.hio.dataAvailable < 2 then
                        (none, { c with next_state := .SERVER_CERT })
                      else
                        match readBytes c.hio 2 with
                        | none => (some .STUFFER_OUT_OF_DATA, c)
                        | some (es, s7) =>
                          let c := { c with hio := s7 }
                          let extensions_size := es.getD 0 0 * 256 + es.getD 1 0
                          if extensions_size > c.hio.dataAvailable then
                            (some .BAD_MESSAGE, c)
                          else
                            match readBytes c.hio extensions_size with
                            | none => (some .NULL_BLOB, c)
                            | some (extensions, s8) =>
                              let c := { c with hio := s8 }
                              match s2n_server_extensions_recv c extensions with
                              | (some err, c2) => (some err, c2)
                              | (none, c2) => (none, { c2 with next_state := .SERVER_CERT })

/-- The 4-byte big-endian serialization written by s2n_stuffer_write_uint32. -/
def be32 (n : Nat) : List Nat :=
  [n / 16777216 % 256, n / 65536 % 256, n / 256 % 256, n % 256]

/-- s2n_server_hello_send from s2n_server_hello.c.  gmt_unix_time stands
for the external time(NULL) call and rand_data for the 28 bytes produced by
the external secure-random provider; with the unbounded stuffer model every
write succeeds, so the function is total. -/
def s2n_server_hello_send (gmt_unix_time : Nat) (rand_data : List Nat) (c0 : Conn) : Conn :=
  let c := { c0 with pending :=
      { c0.pending with server_random := be32 gmt_unix_time ++ rand_data } }
  let c := if c.client_protocol_version < c.server_protocol_version then
             { c with actual_protocol_version := c.client_protocol_version }
           else c
  let protocol_version :=
    [c.actual_protocol_version / 10, c.actual_protocol_version % 10]
  let c := { c with pending := { c.pending with signature_digest_alg :=
      if c.actual_protocol_version = S2N_TLS12 then S2N_HASH_SHA1
      else S2N_HASH_MD5_SHA1 } }
  let c := { c with hio :=
      ((((c.hio.write protocol_version).write c.pending.server_random).write
          [0]).write c.pending.cipher_suite).write [S2N_TLS_COMPRESSION_METHOD_NULL] }
  let c := s2n_server_extensions_send c
  { c with actual_protocol_version_established := true, next_state := .SERVER_CERT }

/-- Available bytes are the length of the unread suffix. -/
theorem Stuffer.dataAvailable_eq (s : Stuffer) : s.dataAvailable = s.remaining.length := by
  simp [Stuffer.dataAvailable, Stuffer.remaining]

/-- A checked read of exactly the length of a known prefix of the unread
bytes succeeds with that prefix and advances the cursor past it. -/
theorem readBytes_exact (s : Stuffer) (xs ys : List Nat) (n : Nat)
    (h : s.remaining = xs ++ ys) (hn : xs.length = n) :
    readBytes s n = some (xs, { s with readPos := s.readPos + n }) ∧
    Stuffer.remaining { s with readPos := s.readPos + n } = ys := by
  subst hn
  have hrem : Stuffer.remaining { s with readPos := s.readPos + xs.length } = ys := by
    show s.data.drop (s.readPos + xs.length) = ys
    have : s.data.drop (s.readPos + xs.length) = (s.data.drop s.readPos).drop xs.length := by
      rw [List.drop_drop, Nat.add_comm]
    rw [this]
    show (Stuffer.remaining s).drop xs.length = ys
    rw [h, List.drop_left]
  refine ⟨?_, hrem⟩
  unfold readBytes Stuffer.rawRead
  rw [if_pos]
  · rw [h, List.take_left]
  · rw [Stuffer.dataAvailable_eq, h, List.length_append]
    exact Nat.le_add_right _ _

/-- The empty stuffer. -/
def stuffer0 : Stuffer := ⟨[], 0⟩

/-- A baseline connection used by the concrete instances below. -/
def conn0 : Conn :=
  { mode := .S2N_CLIENT
    state := .CLIENT_HELLO
    next_state := .CLIENT_HELLO
    hio := stuffer0
    inb := stuffer0
    out := stuffer0
    header_in := stuffer0
    in_status := .PLAINTEXT
    hashes := ⟨[], [], [], [], [], []⟩
    closed := false
    client_protocol_version := 33
    server_protocol_version := 33
    actual_protocol_version := 33
    actual_protocol_version_established := false
    pending := ⟨List.replicate 32 0, [0, 0], 0⟩
    offered_suites := []
    server_extensions := []
    delays := 0
    wire := []
    cprover_ok := true }

/-- External functions that succeed without touching the connection. -/
def ext0 : ExtFns :=
  { handler := fun _ _ c => (none, c)
    sslv2_client_hello_recv := fun c => (none, c)
    process_alert_fragment := fun c => (none, c) }

/-- A server about to send its ServerHello whose out stuffer has drained
(data_available zero, exactly the state after a successful flush) while
handshake_io still holds a 3-byte unsent tail of the previous fragment
round. -/
def c2_conn : Conn :=
  { conn0 with mode := .S2N_SERVER, state := .SERVER_HELLO, next_state := .SERVER_CERT,
               hio := ⟨[9, 9, 9], 0⟩ }

/-- Handlers whose send handler appends the single body byte 77 and sets
next_state, making any invocation visible in the output. -/
def c2_ext : ExtFns :=
  { handler := fun _ _ c =>
      (none, { c with hio := c.hio.write [77], next_state := .SERVER_CERT })
    sslv2_client_hello_recv := fun c => (none, c)
    process_alert_fragment := fun c => (none, c) }

/-- C2 (code bug): with the out stuffer empty but handshake_io holding the
unsent tail 9,9,9 of a pending message, handshake_write_io runs the
fresh-message block anyway: the record it flushes to the wire contains a
newly appended 4-byte header placeholder (backpatched over bytes of the
tail, yielding 9,0,0,4) and the body byte 77 appended by the handler the
driver invoked, instead of the plain next fragment 9,9,9.  The driver gates
the fresh-message block on the out stuffer alone, contradicting the
documented contract that a fresh message starts only when handshake_io is
also empty. -/
theorem c2_fresh_message_despite_pending_tail :
    c2_conn.out.dataAvailable = 0 ∧
    c2_conn.hio.dataAvailable = 3 ∧
    (handshake_write_io c2_ext 100 c2_conn).1 = none ∧
    (handshake_write_io c2_ext 100 c2_conn).2.wire =
      [22, 3, 3, 0, 8, 9, 0, 0, 4, 0, 0, 0, 77] := by
  decide

/-- A client in SERVER_HELLO state receiving a one-byte record. -/
def c3_conn : Conn :=
  { conn0 with mode := .S2N_CLIENT, state := .SERVER_HELLO, inb := ⟨[1], 0⟩ }

/-- External functions whose handlers always fail. -/
def c3_ext : ExtFns :=
  { handler := fun _ _ c => (some .BAD_MESSAGE, c)
    sslv2_client_hello_recv := fun c => (some .BAD_MESSAGE, c)
    process_alert_fragment := fun c => (none, c) }

/-- C3 counterexample: on the change_cipher_spec path the handler failure is
surfaced with no blinding delay (the delay counter stays at zero), so the
randomized delay is not applied on every handler-failure path of
handshake_read_io. -/
theorem c3_counterexample :
    (handshake_read_io c3_ext TLS_CHANGE_CIPHER_SPEC false c3_conn).1 =
      some .BAD_MESSAGE ∧
    (handshake_read_io c3_ext TLS_CHANGE_CIPHER_SPEC false c3_conn).2.delays = 0 ∧
    c3_conn.delays = 0 := by
  decide

/-- C6 (confirmed): for an inbound change_cipher_spec record, content that
is not exactly one byte is rejected fatally as bad_message with no handler
invocation (the result does not depend on the handlers) and no state
advance; a one-byte content is appended to handshake_io and handed to the
current state's handler (witnessed here by handlers that record the
handshake_io they are given and the next_state they set), after which the
buffers are wiped, the transition assertion is evaluated and the state
advances exactly once. -/
theorem c6_ccs_path (e : ExtFns) (c0 : Conn) :
    (c0.inb.dataAvailable ≠ 1 →
       handshake_read_io e TLS_CHANGE_CIPHER_SPEC false c0 =
         (some .BAD_MESSAGE, validate_recv_state c0) ∧
       (handshake_read_io e TLS_CHANGE_CIPHER_SPEC false c0).2.state = c0.state ∧
       (handshake_read_io e TLS_CHANGE_CIPHER_SPEC false c0).2.hashes = c0.hashes ∧
       (handshake_read_io e TLS_CHANGE_CIPHER_SPEC false c0).2.delays = c0.delays) ∧
    (∀ (b : Nat) (ns : HsState), c0.inb.remaining = [b] →
       (∀ x, e.handler c0.state c0.mode x =
          (none, { x with next_state := ns, wire := x.hio.data })) →
       (handshake_read_io e TLS_CHANGE_CIPHER_SPEC false c0).1 = none ∧
       (handshake_read_io e TLS_CHANGE_CIPHER_SPEC false c0).2.wire =
         c0.hio.data ++ [b] ∧
       (handshake_read_io e TLS_CHANGE_CIPHER_SPEC false c0).2.state = ns ∧
       (handshake_read_io e TLS_CHANGE_CIPHER_SPEC false c0).2.hio = stuffer0 ∧
       (handshake_read_io e TLS_CHANGE_CIPHER_SPEC false c0).2.inb = stuffer0 ∧
       (handshake_read_io e TLS_CHANGE_CIPHER_SPEC false c0).2.header_in = stuffer0 ∧
       (handshake_read_io e TLS_CHANGE_CIPHER_SPEC false c0).2.in_status = .ENCRYPTED ∧
       (handshake_read_io e TLS_CHANGE_CIPHER_SPEC false c0).2.cprover_ok =
         (c0.cprover_ok && validate_recv_state_valid c0.state c0.mode
            && validate_transition_valid c0.state ns)) := by
  constructor
  · intro h
    have hr : handshake_read_io e TLS_CHANGE_CIPHER_SPEC false c0 =
        (some .BAD_MESSAGE, validate_recv_state c0) := by
      unfold handshake_read_io
      simp [validate_recv_state, TLS_CHANGE_CIPHER_SPEC, TLS_APPLICATION_DATA, h]
    refine ⟨hr, ?_, ?_, ?_⟩ <;> rw [hr] <;> rfl
  · intro b ns hrem hh
    have hav : c0.inb.dataAvailable = 1 := by
      rw [Stuffer.dataAvailable_eq, hrem]
      rfl
    have htake : c0.inb.remaining.take 1 = [b] := by rw [hrem]; rfl
    unfold handshake_read_io
    simp [validate_recv_state, TLS_CHANGE_CIPHER_SPEC, TLS_APPLICATION_DATA,
          hav, htake, stuffer_copy, Stuffer.rawRead, hh, Stuffer.write,
          Stuffer.wipe, wipe_record, validate_transition, stuffer0]

/-- C9 (confirmed): the descriptor record type of SERVER_HELLO is handshake,
yet when a one-byte change_cipher_spec record arrives in state SERVER_HELLO
the read driver dispatches the CCS branch and invokes SERVER_HELLO's own
handler (made observable by a handler that latches closed and sets a fresh
next_state the driver then advances to): the branch performs no check of
the arriving record's type against the current state's descriptor
record_type. -/
theorem c9_ccs_dispatch_ignores_record_type (e : ExtFns) (c0 : Conn) :
    ∀ (b : Nat) (ns : HsState), c0.state = .SERVER_HELLO →
      c0.inb.remaining = [b] →
      (∀ x, e.handler .SERVER_HELLO c0.mode x =
         (none, { x with next_state := ns, closed := true })) →
      (state_machine .SERVER_HELLO).record_type = TLS_HANDSHAKE ∧
      TLS_HANDSHAKE ≠ TLS_CHANGE_CIPHER_SPEC ∧
      (handshake_read_io e TLS_CHANGE_CIPHER_SPEC false c0).1 = none ∧
      (handshake_read_io e TLS_CHANGE_CIPHER_SPEC false c0).2.closed = true ∧
      (handshake_read_io e TLS_CHANGE_CIPHER_SPEC false c0).2.state = ns := by
  intro b ns hst hrem hh
  have hav : c0.inb.dataAvailable = 1 := by
    rw [Stuffer.dataAvailable_eq, hrem]
    rfl
  have htake : c0.inb.remaining.take 1 = [b] := by rw [hrem]; rfl
  refine ⟨rfl, by decide, ?_⟩
  unfold handshake_read_io
  simp [validate_recv_state, TLS_CHANGE_CIPHER_SPEC, TLS_APPLICATION_DATA,
        hav, htake, stuffer_copy, Stuffer.rawRead, hst, hh, Stuffer.write,
        Stuffer.wipe, wipe_record, validate_transition, stuffer0]

/-- Handlers that record the handshake_io they are given and advance to
SERVER_CERT, for the C6 witness. -/
def c6_ext : ExtFns :=
  { handler := fun _ _ x => (none, { x with next_state := .SERVER_CERT, wire := x.hio.data })
    sslv2_client_hello_recv := fun c => (none, c)
    process_alert_fragment := fun c => (none, c) }

/-- A client in SERVER_HELLO holding a one-byte CCS record. -/
def c6_conn : Conn :=
  { conn0 with mode := .S2N_CLIENT, state := .SERVER_HELLO, inb := ⟨[1], 0⟩ }

/-- Witness for C6 at a concrete one-byte record. -/
theorem c6_witness :
    (handshake_read_io c6_ext TLS_CHANGE_CIPHER_SPEC false c6_conn).1 = none ∧
    (handshake_read_io c6_ext TLS_CHANGE_CIPHER_SPEC false c6_conn).2.state = .SERVER_CERT ∧
    (handshake_read_io c6_ext TLS_CHANGE_CIPHER_SPEC false c6_conn).2.wire = [1] := by
  have h := (c6_ccs_path c6_ext c6_conn).2 1 .SERVER_CERT (by decide) (fun x => rfl)
  refine ⟨h.1, h.2.2.1, ?_⟩
  rw [h.2.1]
  decide

/-- Handlers that latch closed and advance to SERVER_CERT, for the C9
witness. -/
def c9_ext : ExtFns :=
  { handler := fun _ _ x => (none, { x with next_state := .SERVER_CERT, closed := true })
    sslv2_client_hello_recv := fun c => (none, c)
    process_alert_fragment := fun c => (none, c) }

/-- A client in SERVER_HELLO holding a one-byte CCS record, for C9. -/
def c9_conn : Conn :=
  { conn0 with mode := .S2N_CLIENT, state := .SERVER_HELLO, inb := ⟨[1], 0⟩,
               next_state := .SERVER_HELLO }

/-- Witness for C9 at a concrete one-byte record. -/
theorem c9_witness :
    (handshake_read_io c9_ext TLS_CHANGE_CIPHER_SPEC false c9_conn).1 = none ∧
    (handshake_read_io c9_ext TLS_CHANGE_CIPHER_SPEC false c9_conn).2.closed = true ∧
    (handshake_read_io c9_ext TLS_CHANGE_CIPHER_SPEC false c9_conn).2.state = .SERVER_CERT := by
  have h := c9_ccs_dispatch_ignores_record_type c9_ext c9_conn 1 .SERVER_CERT rfl
    (by decide) (fun x => rfl)
  exact ⟨h.2.2.1, h.2.2.2.1, h.2.2.2.2⟩

/-- The emission phase updates the six digests exactly when the record type
it was given is handshake. -/
theorem hwio_emit_hashes (record_type max_payload_size : Nat) (c : Conn) :
    ((hwio_emit record_type max_payload_size c).2).hashes =
      if record_type = TLS_HANDSHAKE then
        (s2n_conn_update_handshake_hashes c (hwio_frag max_payload_size c)).hashes
      else c.hashes := by
  unfold hwio_emit
  by_cases h : record_type = TLS_HANDSHAKE <;>
    simp [h, s2n_record_write, s2n_flush, s2n_conn_update_handshake_hashes,
          hwio_frag, Stuffer.rawRead, validate_transition, Stuffer.wipe] <;>
    split <;> first
      | rfl
      | (split <;> rfl)

/-- The fresh-message block never touches the digests when the handlers
preserve them. -/
theorem hwio_fresh_hashes (e : ExtFns) (record_type : Nat) (c : Conn)
    (hpres : ∀ s m x, ((e.handler s m x).2).hashes = x.hashes) :
    ((hwio_fresh e record_type c).2).hashes = c.hashes := by
  unfold hwio_fresh
  set c1 := if record_type = TLS_HANDSHAKE then
      s2n_handshake_write_header c (state_machine c.state).message_type else c with hc1
  have h1 : c1.hashes = c.hashes := by
    rw [hc1]
    split <;> rfl
  rcases hh : e.handler c1.state c1.mode c1 with ⟨r, c2⟩
  have h2 : c2.hashes = c1.hashes := by
    have h3 := hpres c1.state c1.mode c1
    rw [hh] at h3
    exact h3
  cases r <;> simp [hh]
  · split <;> simp [s2n_handshake_finish_header, h2, h1]
  · rw [h2, h1]

/-- Projections of the ghost send-role assertion. -/
theorem validate_send_state_state (c : Conn) : (validate_send_state c).state = c.state := rfl

/-- The send-role assertion leaves the digests untouched. -/
theorem validate_send_state_hashes (c : Conn) :
    (validate_send_state c).hashes = c.hashes := rfl

/-- C4 (confirmed): on a write-driver iteration the fragment taken from
handshake_io is absorbed into all six transcript digests exactly when the
record type is handshake; in particular a full handshake_write_io call in a
state whose record type is change_cipher_spec leaves every digest unchanged
whenever the handlers themselves preserve the digests (as the C send
handlers do). -/
theorem c4_hashes_iff_handshake_record :
    (∀ (record_type max_payload_size : Nat) (c : Conn),
       (record_type = TLS_HANDSHAKE →
          ((hwio_emit record_type max_payload_size c).2).hashes =
            ⟨c.hashes.client_md5 ++ hwio_frag max_payload_size c,
             c.hashes.client_sha1 ++ hwio_frag max_payload_size c,
             c.hashes.client_sha256 ++ hwio_frag max_payload_size c,
             c.hashes.server_md5 ++ hwio_frag max_payload_size c,
             c.hashes.server_sha1 ++ hwio_frag max_payload_size c,
             c.hashes.server_sha256 ++ hwio_frag max_payload_size c⟩) ∧
       (record_type ≠ TLS_HANDSHAKE →
          ((hwio_emit record_type max_payload_size c).2).hashes = c.hashes)) ∧
    (∀ (e : ExtFns) (max_payload_size : Nat) (c : Conn),
       (∀ s m x, ((e.handler s m x).2).hashes = x.hashes) →
       (state_machine c.state).record_type = TLS_CHANGE_CIPHER_SPEC →
       ((handshake_write_io e max_payload_size c).2).hashes = c.hashes) := by
  constructor
  · intro record_type max_payload_size c
    constructor
    · intro h
      rw [hwio_emit_hashes, if_pos h]
      rfl
    · intro h
      rw [hwio_emit_hashes, if_neg h]
  · intro e max_payload_size c hpres hrt
    have hemit : ∀ x : Conn,
        ((hwio_emit TLS_CHANGE_CIPHER_SPEC max_payload_size x).2).hashes = x.hashes := by
      intro x
      rw [hwio_emit_hashes, if_neg (by decide)]
    unfold handshake_write_io
    simp only [validate_send_state_state, hrt]
    by_cases hout : (validate_send_state c).out.dataAvailable = 0
    · rw [if_pos hout]
      rcases hfr : hwio_fresh e TLS_CHANGE_CIPHER_SPEC (validate_send_state c) with ⟨r, c1⟩
      have h1 : c1.hashes = c.hashes := by
        have h2 := hwio_fresh_hashes e TLS_CHANGE_CIPHER_SPEC (validate_send_state c) hpres
        rw [hfr] at h2
        exact h2.trans (validate_send_state_hashes c)
      cases r
      · simp only []
        rw [hemit c1, h1]
      · exact h1
    · rw [if_neg hout]
      rw [hemit _]
      exact validate_send_state_hashes c

/-- A connection holding the two bytes 7, 8 in handshake_io, for the C4
witness. -/
def c4_conn : Conn := { conn0 with hio := ⟨[7, 8], 0⟩ }

/-- A client in its change_cipher_spec send state, for the C4 witness. -/
def c4_ccs_conn : Conn :=
  { conn0 with mode := .S2N_CLIENT, state := .CLIENT_CHANGE_CIPHER_SPEC,
               next_state := .CLIENT_FINISHED, hio := ⟨[1], 0⟩ }

/-- Witness for C4: a handshake fragment lands in all six digests; a CCS
write leaves them untouched. -/
theorem c4_witness :
    ((hwio_emit TLS_HANDSHAKE 5 c4_conn).2).hashes =
      ⟨[7, 8], [7, 8], [7, 8], [7, 8], [7, 8], [7, 8]⟩ ∧
    ((handshake_write_io ext0 5 c4_ccs_conn).2).hashes = c4_ccs_conn.hashes := by
  constructor
  · rw [(c4_hashes_iff_handshake_record.1 TLS_HANDSHAKE 5 c4_conn).1 rfl]
    decide
  · exact c4_hashes_iff_handshake_record.2 ext0 5 c4_ccs_conn
      (fun s m x => rfl) (by decide)

/-- The reassembly loop exits at once, wiping the record buffers, when the
record has been fully consumed. -/
theorem hrio_loop_empty (e : ExtFns) (fuel : Nat) (c : Conn)
    (h : c.inb.dataAvailable = 0) :
    hrio_loop e (fuel + 1) c = (none, wipe_record c) := by
  unfold hrio_loop
  rw [if_pos h]

/-- Literal-fuel form of hrio_loop_empty for rewriting. -/
theorem hrio_loop_two (e : ExtFns) (c : Conn) (h : c.inb.dataAvailable = 0) :
    hrio_loop e 2 c = (none, wipe_record c) :=
  hrio_loop_empty e 1 c h

/-- C5 (confirmed): when the record layer signals an SSLv2-compat
ClientHello, any state other than CLIENT_HELLO fails fatally as
bad_message; in CLIENT_HELLO the driver absorbs exactly the 3-byte slice at
offset 2 of the record header followed by the entire record body into all
six transcript digests, dispatches the SSLv2 ClientHello handler (whose
next_state the driver then adopts), evaluates the transition assertion and
advances the state, leaving the record and handshake buffers wiped. -/
theorem c5_sslv2_path (e : ExtFns) (c0 : Conn) (ns : HsState) :
    (c0.state ≠ .CLIENT_HELLO →
       handshake_read_io e TLS_HANDSHAKE true c0 =
         (some .BAD_MESSAGE, validate_recv_state c0)) ∧
    (c0.state = .CLIENT_HELLO →
     c0.inb.readPos = 0 →
     (∀ x, e.sslv2_client_hello_recv x = (none, { x with next_state := ns })) →
     (handshake_read_io e TLS_HANDSHAKE true c0).1 = none ∧
     (handshake_read_io e TLS_HANDSHAKE true c0).2.state = ns ∧
     ((handshake_read_io e TLS_HANDSHAKE true c0).2).hashes =
       ⟨c0.hashes.client_md5 ++ ((c0.header_in.data.drop 2).take 3 ++ c0.inb.data),
        c0.hashes.client_sha1 ++ ((c0.header_in.data.drop 2).take 3 ++ c0.inb.data),
        c0.hashes.client_sha256 ++ ((c0.header_in.data.drop 2).take 3 ++ c0.inb.data),
        c0.hashes.server_md5 ++ ((c0.header_in.data.drop 2).take 3 ++ c0.inb.data),
        c0.hashes.server_sha1 ++ ((c0.header_in.data.drop 2).take 3 ++ c0.inb.data),
        c0.hashes.server_sha256 ++ ((c0.header_in.data.drop 2).take 3 ++ c0.inb.data)⟩ ∧
     (handshake_read_io e TLS_HANDSHAKE true c0).2.hio = stuffer0 ∧
     (handshake_read_io e TLS_HANDSHAKE true c0).2.inb = stuffer0 ∧
     (handshake_read_io e TLS_HANDSHAKE true c0).2.header_in = stuffer0 ∧
     (handshake_read_io e TLS_HANDSHAKE true c0).2.in_status = .ENCRYPTED ∧
     (handshake_read_io e TLS_HANDSHAKE true c0).2.cprover_ok =
       (c0.cprover_ok && validate_recv_state_valid .CLIENT_HELLO c0.mode
          && validate_transition_valid .CLIENT_HELLO ns)) := by
  constructor
  · intro h
    unfold handshake_read_io
    simp [validate_recv_state, h]
  · intro hst hrp hh
    have hbody : c0.inb.data.take c0.inb.dataAvailable = c0.inb.data := by
      unfold Stuffer.dataAvailable
      rw [hrp, Nat.sub_zero, List.take_length]
    unfold handshake_read_io
    simp [hst, hrp, hh, validate_recv_state, s2n_conn_update_handshake_hashes, hash_update,
          stuffer_copy, Stuffer.rawRead, Stuffer.write, Stuffer.wipe, wipe_record,
          validate_transition, stuffer0, hbody, TLS_HANDSHAKE, TLS_APPLICATION_DATA,
          TLS_CHANGE_CIPHER_SPEC, TLS_ALERT, hrio_loop_two, Stuffer.dataAvailable]

/-- External functions whose SSLv2 handler advances to SERVER_HELLO, for
the C5 witness. -/
def c5_ext : ExtFns :=
  { handler := fun _ _ c => (none, c)
    sslv2_client_hello_recv := fun x => (none, { x with next_state := .SERVER_HELLO })
    process_alert_fragment := fun c => (none, c) }

/-- A server in CLIENT_HELLO with an SSLv2 record header and a 3-byte body. -/
def c5_conn : Conn :=
  { conn0 with mode := .S2N_SERVER, state := .CLIENT_HELLO,
               header_in := ⟨[0, 0, 1, 3, 1], 0⟩, inb := ⟨[1, 2, 3], 0⟩ }

/-- Witness for C5 at a concrete SSLv2-compat record. -/
theorem c5_witness :
    (handshake_read_io c5_ext TLS_HANDSHAKE true c5_conn).1 = none ∧
    (handshake_read_io c5_ext TLS_HANDSHAKE true c5_conn).2.state = .SERVER_HELLO ∧
    ((handshake_read_io c5_ext TLS_HANDSHAKE true c5_conn).2).hashes.client_sha256 =
      [1, 3, 1, 1, 2, 3] := by
  have h := (c5_sslv2_path c5_ext c5_conn .SERVER_HELLO).2 rfl rfl (fun x => rfl)
  refine ⟨h.1, h.2.1, ?_⟩
  rw [h.2.2.1]
  decide

/-- C3 (amended): the randomized blinding delay is imposed exactly on
handler failures inside the handshake reassembly loop: whenever the loop
has read a complete, type-matching message and the state's handler fails,
the error is surfaced with the delay counter incremented once; on the
change_cipher_spec path and on the SSLv2-compat ClientHello path a handler
failure propagates with no delay.  The last conjunct records that on
handshake records the driver is exactly the reassembly loop. -/
theorem c3_delay_only_in_reassembly_loop :
    (∀ (e : ExtFns) (fuel : Nat) (c c1 : Conn) (mt : Nat) (err : S2nErr),
       c.inb.dataAvailable ≠ 0 →
       read_full_handshake_message c = (.complete mt, c1) →
       mt = (state_machine c1.state).message_type →
       (∀ x, e.handler c1.state c1.mode x = (some err, x)) →
       hrio_loop e (fuel + 1) c =
         (some err, s2n_sleep_delay { c1 with hio := c1.hio.wipe }) ∧
       (hrio_loop e (fuel + 1) c).2.delays = c1.delays + 1) ∧
    (∀ (e : ExtFns) (c0 : Conn) (b : Nat) (err : S2nErr),
       c0.inb.remaining = [b] →
       (∀ x, e.handler c0.state c0.mode x = (some err, x)) →
       (handshake_read_io e TLS_CHANGE_CIPHER_SPEC false c0).1 = some err ∧
       (handshake_read_io e TLS_CHANGE_CIPHER_SPEC false c0).2.delays = c0.delays) ∧
    (∀ (e : ExtFns) (c0 : Conn) (err : S2nErr),
       c0.state = .CLIENT_HELLO →
       (∀ x, e.sslv2_client_hello_recv x = (some err, x)) →
       (handshake_read_io e TLS_HANDSHAKE true c0).1 = some err ∧
       (handshake_read_io e TLS_HANDSHAKE true c0).2.delays = c0.delays) ∧
    (∀ (e : ExtFns) (c0 : Conn),
       handshake_read_io e TLS_HANDSHAKE false c0 =
         hrio_loop e ((validate_recv_state c0).inb.dataAvailable * 2 + 2)
           (validate_recv_state c0)) := by
  refine ⟨?_, ?_, ?_, ?_⟩
  · intro e fuel c c1 mt err hav hread hmt hfail
    have hloop : hrio_loop e (fuel + 1) c =
        (some err, s2n_sleep_delay { c1 with hio := c1.hio.wipe }) := by
      unfold hrio_loop
      rw [if_neg hav, hread]
      simp [hmt, hfail]
    refine ⟨hloop, ?_⟩
    rw [hloop]
    rfl
  · intro e c0 b err hrem hfail
    have hav : c0.inb.dataAvailable = 1 := by
      rw [Stuffer.dataAvailable_eq, hrem]
      rfl
    have htake : c0.inb.remaining.take 1 = [b] := by rw [hrem]; rfl
    unfold handshake_read_io
    simp [validate_recv_state, TLS_CHANGE_CIPHER_SPEC, TLS_APPLICATION_DATA,
          hav, htake, stuffer_copy, Stuffer.rawRead, hfail, Stuffer.write]
  · intro e c0 err hst hfail
    unfold handshake_read_io
    simp [hst, hfail, validate_recv_state, s2n_conn_update_handshake_hashes,
          hash_update, stuffer_copy, Stuffer.rawRead, Stuffer.write]
  · intro e c0
    unfold handshake_read_io
    simp [TLS_HANDSHAKE, TLS_APPLICATION_DATA, TLS_CHANGE_CIPHER_SPEC, TLS_ALERT]

/-- A client in SERVER_HELLO holding one complete ServerHello-typed message
(type 2, one body byte) in a single record, for the C3 witness. -/
def c3_loop_conn : Conn :=
  { conn0 with mode := .S2N_CLIENT, state := .SERVER_HELLO,
               inb := ⟨[2, 0, 0, 1, 77], 0⟩ }

/-- A server in CLIENT_HELLO receiving an SSLv2-compat record, for the C3
witness. -/
def c3_ssl_conn : Conn :=
  { conn0 with mode := .S2N_SERVER, state := .CLIENT_HELLO,
               header_in := ⟨[0, 0, 1, 0, 3], 0⟩, inb := ⟨[1, 2, 3], 0⟩ }

/-- Witness for C3: the loop path delays exactly once on handler failure;
the CCS and SSLv2 paths fail with the delay counter untouched. -/
theorem c3_witness :
    ((hrio_loop c3_ext 12 c3_loop_conn).1 = some S2nErr.BAD_MESSAGE ∧
     (hrio_loop c3_ext 12 c3_loop_conn).2.delays = 1) ∧
    ((handshake_read_io c3_ext TLS_CHANGE_CIPHER_SPEC false c3_conn).1 =
       some S2nErr.BAD_MESSAGE ∧
     (handshake_read_io c3_ext TLS_CHANGE_CIPHER_SPEC false c3_conn).2.delays = 0) ∧
    ((handshake_read_io c3_ext TLS_HANDSHAKE true c3_ssl_conn).1 =
       some S2nErr.BAD_MESSAGE ∧
     (handshake_read_io c3_ext TLS_HANDSHAKE true c3_ssl_conn).2.delays = 0) := by
  refine ⟨?_, ?_, ?_⟩
  · have h := c3_delay_only_in_reassembly_loop.1 c3_ext 11 c3_loop_conn
      (read_full_handshake_message c3_loop_conn).2 2 S2nErr.BAD_MESSAGE
      (by decide) (by decide) (by decide) (fun x => rfl)
    refine ⟨?_, ?_⟩
    · rw [h.1]
    · rw [h.2]
      decide
  · have h := c3_delay_only_in_reassembly_loop.2.1 c3_ext c3_conn 1 S2nErr.BAD_MESSAGE
      (by decide) (fun x => rfl)
    exact ⟨h.1, h.2.trans (by decide)⟩
  · have h := c3_delay_only_in_reassembly_loop.2.2.1 c3_ext c3_ssl_conn S2nErr.BAD_MESSAGE
      rfl (fun x => rfl)
    exact ⟨h.1, h.2.trans (by decide)⟩

/-- A client that previously accepted TLS 1.2 receiving a ServerHello that
announces protocol version 3.4. -/
def c7_conn : Conn := { conn0 with hio := ⟨[3, 4], 0⟩ }

/-- C7 counterexample: a ServerHello version exceeding the previously
accepted version makes s2n_server_hello_recv fail with the bad_message
kind, which is distinct from the unsupported_version kind the claim
names. -/
theorem c7_counterexample :
    (s2n_server_hello_recv c7_conn).1 = some S2nErr.BAD_MESSAGE ∧
    S2nErr.BAD_MESSAGE ≠ S2nErr.UNSUPPORTED_VERSION := by
  decide

/-- C7 (amended): both version rejections of s2n_server_hello_recv fail
with the bad_message error kind (the code raises S2N_ERR_BAD_MESSAGE, not a
distinct unsupported_version kind): a version above the previously accepted
one fails before latching actual_protocol_version or the established flag
(though server_protocol_version is already overwritten), while a version
that passes that check but lies outside the SSLv3..TLS1.2 range fails after
latching actual_protocol_version and setting the established flag. -/
theorem c7_version_errors_bad_message (c0 : Conn) (b0 b1 : Nat) (rest : List Nat) :
    c0.hio.remaining = b0 :: b1 :: rest →
    ((b0 * 10 + b1 > c0.actual_protocol_version →
        (s2n_server_hello_recv c0).1 = some S2nErr.BAD_MESSAGE ∧
        (s2n_server_hello_recv c0).2.actual_protocol_version =
          c0.actual_protocol_version ∧
        (s2n_server_hello_recv c0).2.actual_protocol_version_established =
          c0.actual_protocol_version_established ∧
        (s2n_server_hello_recv c0).2.server_protocol_version = b0 * 10 + b1) ∧
     (b0 * 10 + b1 ≤ c0.actual_protocol_version →
      b0 * 10 + b1 < S2N_SSLv3 ∨ b0 * 10 + b1 > S2N_TLS12 →
        (s2n_server_hello_recv c0).1 = some S2nErr.BAD_MESSAGE ∧
        (s2n_server_hello_recv c0).2.actual_protocol_version = b0 * 10 + b1 ∧
        (s2n_server_hello_recv c0).2.actual_protocol_version_established = true)) := by
  intro hrem
  have hread := readBytes_exact c0.hio [b0, b1] rest 2 (by rw [hrem]; rfl) rfl
  constructor
  · intro hgt
    unfold s2n_server_hello_recv
    simp only [S2N_TLS_PROTOCOL_VERSION_LEN]
    rw [hread.1]
    simp [List.getD, hgt]
  · intro hle hrange
    have hnot : ¬ (b0 * 10 + b1 > c0.actual_protocol_version) := Nat.not_lt.mpr hle
    unfold s2n_server_hello_recv
    simp only [S2N_TLS_PROTOCOL_VERSION_LEN]
    rw [hread.1]
    simp only [List.getD_cons_zero, List.getD_cons_succ]
    rw [if_neg hnot]
    rw [if_pos hrange]
    exact ⟨rfl, rfl, rfl⟩

/-- Witness for C7 at concrete inputs: version 3.4 against accepted 3.3,
and version 2.0 against accepted 3.3. -/
theorem c7_witness :
    ((s2n_server_hello_recv c7_conn).1 = some S2nErr.BAD_MESSAGE ∧
     (s2n_server_hello_recv c7_conn).2.actual_protocol_version = 33 ∧
     (s2n_server_hello_recv c7_conn).2.actual_protocol_version_established = false) ∧
    ((s2n_server_hello_recv { conn0 with hio := ⟨[2, 0], 0⟩ }).1 =
       some S2nErr.BAD_MESSAGE ∧
     (s2n_server_hello_recv { conn0 with hio := ⟨[2, 0], 0⟩ }).2.actual_protocol_version
       = 20 ∧
     (s2n_server_hello_recv
        { conn0 with hio := ⟨[2, 0], 0⟩ }).2.actual_protocol_version_established
       = true) := by
  constructor
  · have h := (c7_version_errors_bad_message c7_conn 3 4 [] rfl).1 (by decide)
    exact ⟨h.1, h.2.1.trans (by decide), h.2.2.1.trans (by decide)⟩
  · have h := (c7_version_errors_bad_message { conn0 with hio := ⟨[2, 0], 0⟩ } 2 0 []
      rfl).2 (by decide) (Or.inl (by decide))
    exact ⟨h.1, h.2.1, h.2.2⟩

/-- A ServerHello whose version and fields parse but whose compression byte
is 9, fed to a client that previously accepted TLS 1.2. -/
def c10_comp_conn : Conn :=
  { conn0 with
      hio := ⟨[3, 3] ++ List.replicate 32 5 ++ [0] ++ [0, 5] ++ [9], 0⟩,
      offered_suites := [[0, 5]] }

/-- C10 (confirmed): s2n_server_hello_recv is not atomic on error: a
version at or below the accepted one but under SSLv3 is rejected only
after server_protocol_version, actual_protocol_version and the established
flag have been overwritten; and a later failure (compression byte 9) is
rejected after the version has been latched, the established flag set, the
server random stored and the cipher suite chosen, so the connection state
observed after the error reflects the rejected message. -/
theorem c10_recv_not_atomic (c0 : Conn) (b0 b1 : Nat) (rest : List Nat) :
    (c0.hio.remaining = b0 :: b1 :: rest →
     b0 * 10 + b1 ≤ c0.actual_protocol_version →
     b0 * 10 + b1 < S2N_SSLv3 →
     (s2n_server_hello_recv c0).1 = some S2nErr.BAD_MESSAGE ∧
     (s2n_server_hello_recv c0).2.server_protocol_version = b0 * 10 + b1 ∧
     (s2n_server_hello_recv c0).2.actual_protocol_version = b0 * 10 + b1 ∧
     (s2n_server_hello_recv c0).2.actual_protocol_version_established = true) ∧
    ((s2n_server_hello_recv c10_comp_conn).1 = some S2nErr.BAD_MESSAGE ∧
     (s2n_server_hello_recv c10_comp_conn).2.actual_protocol_version = 33 ∧
     (s2n_server_hello_recv c10_comp_conn).2.actual_protocol_version_established
       = true ∧
     (s2n_server_hello_recv c10_comp_conn).2.pending.server_random =
       List.replicate 32 5 ∧
     (s2n_server_hello_recv c10_comp_conn).2.pending.cipher_suite = [0, 5]) := by
  constructor
  · intro hrem hle hlow
    have hread := readBytes_exact c0.hio [b0, b1] rest 2 (by rw [hrem]; rfl) rfl
    have hnot : ¬ (b0 * 10 + b1 > c0.actual_protocol_version) := Nat.not_lt.mpr hle
    unfold s2n_server_hello_recv
    simp only [S2N_TLS_PROTOCOL_VERSION_LEN]
    rw [hread.1]
    simp only [List.getD_cons_zero, List.getD_cons_succ]
    rw [if_neg hnot]
    rw [if_pos (Or.inl hlow)]
    exact ⟨rfl, rfl, rfl, rfl⟩
  · refine ⟨?_, ?_, ?_, ?_, ?_⟩ <;> decide

/-- Witness for C10 at version 2.0 against accepted 3.3. -/
theorem c10_witness :
    (s2n_server_hello_recv { conn0 with hio := ⟨[2, 0, 7], 0⟩ }).1 =
      some S2nErr.BAD_MESSAGE ∧
    (s2n_server_hello_recv { conn0 with hio := ⟨[2, 0, 7], 0⟩ }).2.server_protocol_version
      = 20 ∧
    (s2n_server_hello_recv { conn0 with hio := ⟨[2, 0, 7], 0⟩ }).2.actual_protocol_version
      = 20 ∧
    (s2n_server_hello_recv
       { conn0 with hio := ⟨[2, 0, 7], 0⟩ }).2.actual_protocol_version_established
      = true := by
  have h := (c10_recv_not_atomic { conn0 with hio := ⟨[2, 0, 7], 0⟩ } 2 0 [7]).1
    rfl (by decide) (by decide)
  exact ⟨h.1, h.2.1, h.2.2.1, h.2.2.2⟩

/-- The serialized extension block the modelled send path appends: empty
when there are no extensions, otherwise a 2-byte big-endian total length
followed by the block. -/
def extBlock (ext : List Nat) : List Nat :=
  if ext.isEmpty then []
  else [ext.length / 256 % 256, ext.length % 256] ++ ext

/-- What s2n_server_hello_send leaves behind when it starts from an empty
handshake_io: the downgraded protocol version, the composed server random,
the untouched pending cipher suite, and the serialized message bytes. -/
theorem send_components (gmt : Nat) (rand_data : List Nat) (cs : Conn)
    (h0 : cs.hio = ⟨[], 0⟩) :
    (s2n_server_hello_send gmt rand_data cs).actual_protocol_version =
      (if cs.client_protocol_version < cs.server_protocol_version then
         cs.client_protocol_version else cs.actual_protocol_version) ∧
    (s2n_server_hello_send gmt rand_data cs).pending.server_random =
      be32 gmt ++ rand_data ∧
    (s2n_server_hello_send gmt rand_data cs).pending.cipher_suite =
      cs.pending.cipher_suite ∧
    (s2n_server_hello_send gmt rand_data cs).hio.data =
      [(if cs.client_protocol_version < cs.server_protocol_version then
          cs.client_protocol_version else cs.actual_protocol_version) / 10,
       (if cs.client_protocol_version < cs.server_protocol_version then
          cs.client_protocol_version else cs.actual_protocol_version) % 10] ++
        ((be32 gmt ++ rand_data) ++
          ([0] ++ (cs.pending.cipher_suite ++
            ([0] ++ extBlock cs.server_extensions)))) := by
  unfold s2n_server_hello_send s2n_server_extensions_send
  by_cases hc : cs.client_protocol_version < cs.server_protocol_version <;>
  by_cases he : cs.server_extensions.isEmpty <;>
    simp [hc, he, h0, Stuffer.write, extBlock, S2N_TLS_COMPRESSION_METHOD_NULL,
          List.append_assoc]

/-- Receiving a well-formed ServerHello: a version at or below the
previously accepted one and inside the SSLv3..TLS1.2 range, a 32-byte
server random, an empty session id, a cipher suite from the offered set, a
null compression byte and a well-formed (possibly empty) extension block
parse successfully and latch exactly the sent version, random and suite. -/
theorem recv_wellformed (cp : Conn) (v : Nat) (sr suite extb : List Nat)
    (hsr : sr.length = 32) (hsuite : suite.length = 2)
    (hmem : suite ∈ cp.offered_suites)
    (hgt : ¬ (v > cp.actual_protocol_version))
    (hlow : ¬ (v < S2N_SSLv3)) (hhigh : ¬ (v > S2N_TLS12))
    (hextb : extb = [] ∨ ∃ E : List Nat, E.length < 65536 ∧
        extb = [E.length / 256 % 256, E.length % 256] ++ E) :
    (s2n_server_hello_recv
        { cp with hio :=
            ⟨[v / 10, v % 10] ++ (sr ++ ([0] ++ (suite ++ ([0] ++ extb)))), 0⟩ }).1
      = none ∧
    (s2n_server_hello_recv
        { cp with hio :=
            ⟨[v / 10, v % 10] ++ (sr ++ ([0] ++ (suite ++ ([0] ++ extb)))), 0⟩ }
      ).2.actual_protocol_version = v ∧
    (s2n_server_hello_recv
        { cp with hio :=
            ⟨[v / 10, v % 10] ++ (sr ++ ([0] ++ (suite ++ ([0] ++ extb)))), 0⟩ }
      ).2.pending.server_random = sr ∧
    (s2n_server_hello_recv
        { cp with hio :=
            ⟨[v / 10, v % 10] ++ (sr ++ ([0] ++ (suite ++ ([0] ++ extb)))), 0⟩ }
      ).2.pending.cipher_suite = suite := by
  have hv10 : v / 10 * 10 + v % 10 = v := by
    rw [Nat.mul_comm]
    exact Nat.div_add_mod v 10
  set L := [v / 10, v % 10] ++ (sr ++ ([0] ++ (suite ++ ([0] ++ extb)))) with hLdef
  have h1 := readBytes_exact ⟨L, 0⟩ [v / 10, v % 10]
      (sr ++ ([0] ++ (suite ++ ([0] ++ extb)))) 2 (by rw [hLdef]; rfl) rfl
  have h1a : readBytes ⟨L, 0⟩ 2 = some ([v / 10, v % 10], ⟨L, 2⟩) := by
    simpa using h1.1
  have h1b : (⟨L, 2⟩ : Stuffer).remaining = sr ++ ([0] ++ (suite ++ ([0] ++ extb))) := by
    simpa using h1.2
  have h2 := readBytes_exact ⟨L, 2⟩ sr ([0] ++ (suite ++ ([0] ++ extb))) 32 h1b hsr
  have h2a : readBytes ⟨L, 2⟩ 32 = some (sr, ⟨L, 34⟩) := by simpa using h2.1
  have h2b : (⟨L, 34⟩ : Stuffer).remaining = [0] ++ (suite ++ ([0] ++ extb)) := by
    simpa using h2.2
  have h3 := readBytes_exact ⟨L, 34⟩ [0] (suite ++ ([0] ++ extb)) 1 h2b rfl
  have h3a : readBytes ⟨L, 34⟩ 1 = some ([0], ⟨L, 35⟩) := by simpa using h3.1
  have h3b : (⟨L, 35⟩ : Stuffer).remaining = suite ++ ([0] ++ extb) := by
    simpa using h3.2
  have h4 := readBytes_exact ⟨L, 35⟩ [] (suite ++ ([0] ++ extb)) 0 (by rw [h3b]; rfl) rfl
  have h4a : readBytes ⟨L, 35⟩ 0 = some ([], ⟨L, 35⟩) := by simpa using h4.1
  have h5 := readBytes_exact ⟨L, 35⟩ suite ([0] ++ extb) 2 h3b hsuite
  have h5a : readBytes ⟨L, 35⟩ 2 = some (suite, ⟨L, 37⟩) := by simpa using h5.1
  have h5b : (⟨L, 37⟩ : Stuffer).remaining = [0] ++ extb := by simpa using h5.2
  have h6 := readBytes_exact ⟨L, 37⟩ [0] extb 1 h5b rfl
  have h6a : readBytes ⟨L, 37⟩ 1 = some ([0], ⟨L, 38⟩) := by simpa using h6.1
  have h6b : (⟨L, 38⟩ : Stuffer).remaining = extb := by simpa using h6.2
  rcases hextb with hE | ⟨E, hElen, hE⟩
  · have hav38 : (⟨L, 38⟩ : Stuffer).dataAvailable = 0 := by
      rw [Stuffer.dataAvailable_eq, h6b, hE]
      rfl
    unfold s2n_server_hello_recv
    simp [S2N_TLS_PROTOCOL_VERSION_LEN, S2N_TLS_RANDOM_DATA_LEN,
          S2N_TLS_SESSION_ID_LEN, S2N_TLS_CIPHER_SUITE_LEN,
          S2N_TLS_COMPRESSION_METHOD_NULL,
          h1a, h2a, h3a, h4a, h5a, h6a, hv10, hgt, hlow, hhigh, hav38,
          s2n_set_cipher_as_client, hmem, List.getD_cons_zero, List.getD_cons_succ]
  · have hsz : E.length / 256 % 256 * 256 + E.length % 256 = E.length := by
      have hq : E.length / 256 < 256 := by omega
      rw [Nat.mod_eq_of_lt hq, Nat.mul_comm]
      exact Nat.div_add_mod E.length 256
    have h6c : (⟨L, 38⟩ : Stuffer).remaining =
        [E.length / 256 % 256, E.length % 256] ++ E := by rw [h6b, hE]
    have h7 := readBytes_exact ⟨L, 38⟩ [E.length / 256 % 256, E.length % 256] E 2 h6c rfl
    have h7a : readBytes ⟨L, 38⟩ 2 =
        some ([E.length / 256 % 256, E.length % 256], ⟨L, 40⟩) := by simpa using h7.1
    have h7b : (⟨L, 40⟩ : Stuffer).remaining = E := by simpa using h7.2
    have hav38 : (⟨L, 38⟩ : Stuffer).dataAvailable = 2 + E.length := by
      rw [Stuffer.dataAvailable_eq, h6c]
      simp only [List.length_append, List.length_cons, List.length_nil]
    have hnav38 : ¬ ((⟨L, 38⟩ : Stuffer).dataAvailable < 2) := by
      rw [hav38]
      omega
    have hav40 : (⟨L, 40⟩ : Stuffer).dataAvailable = E.length := by
      rw [Stuffer.dataAvailable_eq, h7b]
    have hnav40 : ¬ (E.length > (⟨L, 40⟩ : Stuffer).dataAvailable) := by
      rw [hav40]
      omega
    have h8 := readBytes_exact ⟨L, 40⟩ E [] E.length (by rw [h7b, List.append_nil]) rfl
    have h8a : readBytes ⟨L, 40⟩ E.length = some (E, ⟨L, 40 + E.length⟩) := by
      simpa using h8.1
    unfold s2n_server_hello_recv
    simp [S2N_TLS_PROTOCOL_VERSION_LEN, S2N_TLS_RANDOM_DATA_LEN,
          S2N_TLS_SESSION_ID_LEN, S2N_TLS_CIPHER_SUITE_LEN,
          S2N_TLS_COMPRESSION_METHOD_NULL,
          h1a, h2a, h3a, h4a, h5a, h6a, h7a, h8a, hv10, hgt, hlow, hhigh,
          hsz, hnav38, hnav40,
          s2n_set_cipher_as_client, hmem, s2n_server_extensions_recv,
          List.getD_cons_zero, List.getD_cons_succ]

/-- A server whose connection carries protocol version 3.4; the send path
happily serializes it. -/
def c8_bad_sender : Conn :=
  { conn0 with mode := .S2N_SERVER, client_protocol_version := 34,
               server_protocol_version := 34, actual_protocol_version := 34,
               pending := ⟨List.replicate 32 0, [0, 5], 0⟩ }

/-- A client peer offering the sender's cipher suite, having accepted at
most TLS 1.2. -/
def c8_peer : Conn := { conn0 with offered_suites := [[0, 5]] }

/-- C8 counterexample: s2n_server_hello_send succeeds on a connection whose
version fields read 3.4, but feeding the exact bytes it wrote to a peer
offering the same cipher suites makes s2n_server_hello_recv fail, so the
round trip does not hold for every connection state in which the send path
succeeds. -/
theorem c8_counterexample :
    (s2n_server_hello_recv
        { c8_peer with hio :=
            ⟨(s2n_server_hello_send 0 (List.replicate 28 0) c8_bad_sender).hio.data,
             0⟩ }).1 = some S2nErr.BAD_MESSAGE := by
  decide

/-- C8 (amended): the ServerHello round trip holds once the sent
(downgraded) protocol version lies in the accepted SSLv3..TLS1.2 range and
does not exceed the version the receiving peer had previously accepted:
under those conditions, for a peer offering the sender's cipher suite,
feeding the exact bytes the send path wrote into s2n_server_hello_recv
succeeds and latches the sender's actual_protocol_version, the sender's
32-byte pending server random, and the sender's chosen cipher suite. -/
theorem c8_roundtrip (cs cp : Conn) (gmt : Nat) (rand_data : List Nat)
    (h0 : cs.hio = ⟨[], 0⟩)
    (hr : rand_data.length = 28)
    (hcs2 : cs.pending.cipher_suite.length = 2)
    (hmem : cs.pending.cipher_suite ∈ cp.offered_suites)
    (hext : cs.server_extensions.length < 65536)
    (hv1 : S2N_SSLv3 ≤ (s2n_server_hello_send gmt rand_data cs).actual_protocol_version)
    (hv2 : (s2n_server_hello_send gmt rand_data cs).actual_protocol_version ≤ S2N_TLS12)
    (hv3 : (s2n_server_hello_send gmt rand_data cs).actual_protocol_version ≤
       cp.actual_protocol_version) :
    (s2n_server_hello_recv
        { cp with hio := ⟨(s2n_server_hello_send gmt rand_data cs).hio.data, 0⟩ }).1
      = none ∧
    (s2n_server_hello_recv
        { cp with hio := ⟨(s2n_server_hello_send gmt rand_data cs).hio.data, 0⟩ }
      ).2.actual_protocol_version =
      (s2n_server_hello_send gmt rand_data cs).actual_protocol_version ∧
    (s2n_server_hello_recv
        { cp with hio := ⟨(s2n_server_hello_send gmt rand_data cs).hio.data, 0⟩ }
      ).2.pending.server_random =
      (s2n_server_hello_send gmt rand_data cs).pending.server_random ∧
    (s2n_server_hello_recv
        { cp with hio := ⟨(s2n_server_hello_send gmt rand_data cs).hio.data, 0⟩ }
      ).2.pending.cipher_suite =
      (s2n_server_hello_send gmt rand_data cs).pending.cipher_suite := by
  obtain ⟨hva, hsrv, hsui, hdata⟩ := send_components gmt rand_data cs h0
  have hsr32 : (be32 gmt ++ rand_data).length = 32 := by
    simp [be32, hr]
  have hextb : extBlock cs.server_extensions = [] ∨
      ∃ E : List Nat, E.length < 65536 ∧
        extBlock cs.server_extensions =
          [E.length / 256 % 256, E.length % 256] ++ E := by
    by_cases he : cs.server_extensions.isEmpty
    · exact Or.inl (by simp [extBlock, he])
    · exact Or.inr ⟨cs.server_extensions, hext, by simp [extBlock, he]⟩
  have h := recv_wellformed cp
      (if cs.client_protocol_version < cs.server_protocol_version then
         cs.client_protocol_version else cs.actual_protocol_version)
      (be32 gmt ++ rand_data) cs.pending.cipher_suite (extBlock cs.server_extensions)
      hsr32 hcs2 hmem
      (by rw [hva] at hv3; exact Nat.not_lt.mpr hv3)
      (by rw [hva] at hv1; exact Nat.not_lt.mpr hv1)
      (by rw [hva] at hv2; exact Nat.not_lt.mpr hv2)
      hextb
  rw [hva, hsrv, hsui, hdata]
  exact h

/-- A server at TLS 1.2 all around, for the C8 witness. -/
def c8_sender : Conn :=
  { conn0 with mode := .S2N_SERVER, pending := ⟨List.replicate 32 0, [0, 5], 0⟩ }

/-- Witness for C8 at a concrete sender and peer. -/
theorem c8_witness :
    (s2n_server_hello_recv
        { c8_peer with hio :=
            ⟨(s2n_server_hello_send 7 (List.replicate 28 1) c8_sender).hio.data,
             0⟩ }).1 = none ∧
    (s2n_server_hello_recv
        { c8_peer with hio :=
            ⟨(s2n_server_hello_send 7 (List.replicate 28 1) c8_sender).hio.data,
             0⟩ }).2.actual_protocol_version = 33 ∧
    (s2n_server_hello_recv
        { c8_peer with hio :=
            ⟨(s2n_server_hello_send 7 (List.replicate 28 1) c8_sender).hio.data,
             0⟩ }).2.pending.cipher_suite = [0, 5] := by
  have h := c8_roundtrip c8_sender c8_peer 7 (List.replicate 28 1) rfl (by decide)
      (by decide) (by decide) (by decide) (by decide) (by decide) (by decide)
  refine ⟨h.1, ?_, ?_⟩
  · rw [h.2.1]
    decide
  · rw [h.2.2.2]
    decide
